import Mathlib

/-!
# Veo Gallery — shallow embedding and verification

This file embeds the Veo Gallery single-page application (the `App`
component, its async video-generation workflow `generateVideoFromText`,
the handlers `handleSaveEdit` / `handleGenerateNewVideo`, and the
`HistoryPage` component) in Lean 4 and proves properties of the
embedding.

Modelling conventions:
* JavaScript `Date` values are modelled by their `getTime()` value, a `Nat`
  of milliseconds.
* The external world (the `@google/genai` SDK, `fetch`, `FileReader`,
  `decodeURIComponent`) is an explicit environment record `GenEnv`; the
  program under verification only composes calls to it.
* Asynchronous code is embedded as explicit state passing; the polling
  loop, whose source form is a `while` on remote state, takes a fuel
  argument, with `none` meaning "still running after `fuel` polls".
* Every external call made by `generateVideoFromText` is recorded in an
  event trace (`Ev`), so that ordering and counting claims are statable.
-/

/-- `types.ts`: a video object - ID, URL, title, and description. -/
structure Video where
  id : String
  videoUrl : String
  title : String
  description : String
deriving DecidableEq, Repr

/-- `types.ts`: a generated video with its creation timestamp
(`createdAt : Date`, modelled as `getTime()` milliseconds). -/
structure HistoryVideo extends Video where
  createdAt : Nat
deriving DecidableEq, Repr

/-- The reference to a downloadable video file inside a
`GeneratedVideo` SDK object (`generatedVideo.video.uri`). -/
structure VideoFileRef where
  uri : String
deriving DecidableEq, Repr

/-- The SDK's `GeneratedVideo` object, of which the program reads only
`.video.uri`. -/
structure GeneratedVideo where
  video : VideoFileRef
deriving DecidableEq, Repr

/-- The `response` payload of a finished operation
(`operation.response.generatedVideos`, which may be absent). -/
structure OpResponse where
  generatedVideos : Option (List GeneratedVideo)
deriving DecidableEq, Repr

/-- The SDK's long-running operation object, of which the program reads
`done` and `response`. -/
structure Operation where
  done : Bool
  response : Option OpResponse
deriving DecidableEq, Repr

/-- The request record passed to `ai.models.generateVideos` in
`generateVideoFromText` (model name, prompt, and config). -/
structure CreateReq where
  model : String
  prompt : String
  numberOfVideos : Nat
  aspect : String
deriving DecidableEq, Repr

/-- A `fetch` response, of which the program reads `ok`, `status`,
`statusText` and the body blob (an opaque string). -/
structure FetchResponse where
  ok : Bool
  status : Nat
  statusText : String
  blob : String
deriving DecidableEq, Repr

/-- The external world as seen by `generateVideoFromText`: the genai SDK
(`create` = `ai.models.generateVideos`, `poll` =
`ai.operations.getVideosOperation`, given the poll index and the current
operation), the browser (`fetch`, `decodeURIComponent`), and the
`FileReader` data-URL encoding of a blob (`readAsDataURL`).  `Except`
results model thrown exceptions / rejected promises. -/
structure GenEnv where
  create : CreateReq → Except String Operation
  poll : Nat → Operation → Except String Operation
  fetch : String → Except String FetchResponse
  decodeURIComponent : String → String
  readAsDataURL : String → String

/-- One external call made by the workflow, for trace-based claims. -/
inductive Ev where
  | createCall (req : CreateReq)
  | pollCall
  | fetchCall (url : String)
deriving DecidableEq, Repr

/-- `const VEO_MODEL_NAME = 'veo-2.0-generate-001'`. -/
def VEO_MODEL_NAME : String := "veo-2.0-generate-001"

/-- JS `String.prototype.split` with the one-character separator used in
the source (a comma), in an executable char-list form. -/
def jsSplitComma (s : String) : List String :=
  (s.data.splitOn ',').map String.mk

/-- JS `String.prototype.trim`: strip leading and trailing whitespace, in
an executable char-list form. -/
def jsTrim (s : String) : String :=
  String.mk (((s.data.dropWhile Char.isWhitespace).reverse.dropWhile
    Char.isWhitespace).reverse)

/-- `bloblToBase64` (sic): read the blob as a data URL and return the part
after the first comma (`url.split(",")[1]`); `none` models the JS
`undefined` produced when the data URL has no comma. -/
def bloblToBase64 (env : GenEnv) (blob : String) : Option String :=
  (jsSplitComma (env.readAsDataURL blob))[1]?

/-- JS template-literal coercion `${x}` of a possibly-undefined string. -/
def jsTemplateStr : Option String → String
  | some s => s
  | none => "undefined"

/-- The `while (!operation.done)` polling loop of `generateVideoFromText`:
poll the operation (recording one `pollCall` per iteration) until it is
done or a poll throws.  `i` is the poll index, `fuel` bounds the embedded
recursion; the result `none` means the loop is still running after `fuel`
polls. -/
def pollLoop (env : GenEnv) : Nat → Operation → Nat →
    List Ev × Option (Except String Operation)
  | fuel, op, i =>
    if op.done then ([], some (Except.ok op))
    else
      match fuel with
      | 0 => ([], none)
      | fuel' + 1 =>
        match env.poll i op with
        | Except.error e => ([Ev.pollCall], some (Except.error e))
        | Except.ok op' =>
          let r := pollLoop env fuel' op' (i + 1)
          (Ev.pollCall :: r.1, r.2)

/-- One element of the `Promise.all(videos.map ...)` body: decode the URI,
fetch `url&key=API_KEY`, throw on a non-ok response, and convert the blob
to base64. -/
def fetchVideoObject (env : GenEnv) (apiKey : String) (gv : GeneratedVideo) :
    List Ev × Except String (Option String) :=
  let url := env.decodeURIComponent gv.video.uri
  let full := url ++ "&key=" ++ apiKey
  match env.fetch full with
  | Except.error e => ([Ev.fetchCall full], Except.error e)
  | Except.ok res =>
    if !res.ok then
      ([Ev.fetchCall full],
        Except.error
          ("Failed to fetch video: " ++ toString res.status ++ " " ++
            res.statusText))
    else ([Ev.fetchCall full], Except.ok (bloblToBase64 env res.blob))

/-- `Promise.all` over the generated videos, sequentialised: the first
rejection wins. -/
def fetchAll (env : GenEnv) (apiKey : String) :
    List GeneratedVideo → List Ev × Except String (List (Option String))
  | [] => ([], Except.ok [])
  | gv :: rest =>
    match fetchVideoObject env apiKey gv with
    | (tr, Except.error e) => (tr, Except.error e)
    | (tr, Except.ok v) =>
      match fetchAll env apiKey rest with
      | (tr', Except.error e) => (tr ++ tr', Except.error e)
      | (tr', Except.ok vs) => (tr ++ tr', Except.ok (v :: vs))

/-- `generateVideoFromText(prompt, numberOfVideos = 1)`: create the remote
job, poll it to completion, then fetch every generated video and return
the base64 strings.  The first component is the trace of external calls;
the second is `none` when the polling loop is still running after `fuel`
polls, otherwise the function's result (`Except.error` models a thrown
error). -/
def generateVideoFromText (env : GenEnv) (apiKey : String) (fuel : Nat)
    (prompt : String) (numberOfVideos : Nat) :
    List Ev × Option (Except String (List (Option String))) :=
  let req : CreateReq :=
    { model := VEO_MODEL_NAME, prompt := prompt,
      numberOfVideos := numberOfVideos, aspect := "16:9" }
  match env.create req with
  | Except.error e => ([Ev.createCall req], some (Except.error e))
  | Except.ok op0 =>
    let pl := pollLoop env fuel op0 0
    let tr := Ev.createCall req :: pl.1
    match pl.2 with
    | none => (tr, none)
    | some (Except.error e) => (tr, some (Except.error e))
    | some (Except.ok op) =>
      match op.response with
      | none => (tr, some (Except.error "No videos generated"))
      | some resp =>
        match resp.generatedVideos with
        | none => (tr, some (Except.error "No videos generated"))
        | some videos =>
          if videos.length = 0 then
            (tr, some (Except.error "No videos generated"))
          else
            let f := fetchAll env apiKey videos
            (tr ++ f.1, some f.2)

/-- `view = 'gallery' | 'history'`. -/
inductive View where
  | gallery
  | history
deriving DecidableEq, Repr

/-- The `useState` hooks of the `App` component, gathered in one record.
`generationError : Option (List String)` models `string[] | null`;
`savingMessage`, `newVideoPrompt`, `loadingVideoId` are as in the source;
`generatedVideosHistory` is the in-memory history list. -/
structure AppState where
  videos : List Video
  playingVideo : Option Video
  editingVideo : Option Video
  isSaving : Bool
  savingMessage : String
  generationError : Option (List String)
  view : View
  generatedVideosHistory : List HistoryVideo
  newVideoPrompt : String
  loadingVideoId : Option String
  isPlaying : Bool
deriving DecidableEq, Repr

/-- The initial `useState` values of `App`, parametrised by `MOCK_VIDEOS`
(defined in `constants.ts`, whose content is irrelevant here): the history
list starts empty, no modal is open, the view is the gallery. -/
def initialAppState (mockVideos : List Video) : AppState :=
  { videos := mockVideos
    playingVideo := none
    editingVideo := none
    isSaving := false
    savingMessage := ""
    generationError := none
    view := View.gallery
    generatedVideosHistory := []
    newVideoPrompt := ""
    loadingVideoId := none
    isPlaying := false }

/-- The fixed catch-all message set by both generation handlers. -/
def genFailMsg : List String :=
  ["Video generation failed.",
    "This may be due to an invalid API key or network issues."]

/-- The synchronous prefix of `handleSaveEdit`, run before the `await`:
close the edit page, set the saving message, enter the saving state, clear
any previous error. -/
def saveEditStart (s : AppState) : AppState :=
  { s with
    editingVideo := none
    savingMessage := "Creating your remix..."
    isSaving := true
    generationError := none }

/-- The synchronous prefix of `handleGenerateNewVideo`, run before the
`await` (after the blank-prompt early return). -/
def generateNewStart (s : AppState) : AppState :=
  { s with
    savingMessage := "Generating your video..."
    isSaving := true
    generationError := none }

/-- The continuation of `handleSaveEdit` after
`await generateVideoFromText` settles: the rest of the `try` block on a
resolved value, the `catch` block on a rejection, and in both cases the
`finally` that clears `isSaving`.  `freshId` models
`self.crypto.randomUUID()` and `now` models `new Date()`. -/
def saveEditFinish (originalVideo : Video) (freshId : String) (now : Nat)
    (outcome : Except String (List (Option String))) (s : AppState) :
    AppState :=
  let s' :=
    match outcome with
    | Except.error _ => { s with generationError := some genFailMsg }
    | Except.ok videoObjects =>
      -- `!videoObjects` is always false for an array, so the guard is the
      -- length test; the throw it triggers is caught by the same catch.
      if videoObjects.length = 0 then
        { s with generationError := some genFailMsg }
      else
        let videoSrc := videoObjects.headD none
        let src := "data:video/mp4;base64," ++ jsTemplateStr videoSrc
        let newVideo : Video :=
          { id := freshId
            videoUrl := src
            title := "Remix of \"" ++ originalVideo.title ++ "\""
            description := originalVideo.description }
        { s with
          videos := newVideo :: s.videos
          generatedVideosHistory :=
            { toVideo := newVideo, createdAt := now } ::
              s.generatedVideosHistory
          view := View.history
          playingVideo := some newVideo
          isPlaying := true }
  { s' with isSaving := false }

/-- The continuation of `handleGenerateNewVideo` after the `await`
settles, with `promptText` the trimmed prompt captured at call time. -/
def generateNewFinish (promptText : String) (freshId : String) (now : Nat)
    (outcome : Except String (List (Option String))) (s : AppState) :
    AppState :=
  let s' :=
    match outcome with
    | Except.error _ => { s with generationError := some genFailMsg }
    | Except.ok videoObjects =>
      if videoObjects.length = 0 then
        { s with generationError := some genFailMsg }
      else
        let videoSrc := videoObjects.headD none
        let src := "data:video/mp4;base64," ++ jsTemplateStr videoSrc
        let newVideo : Video :=
          { id := freshId
            videoUrl := src
            title :=
              "Generated: \"" ++ promptText.take 40 ++
                (if promptText.length > 40 then "..." else "") ++ "\""
            description := promptText }
        { s with
          videos := newVideo :: s.videos
          generatedVideosHistory :=
            { toVideo := newVideo, createdAt := now } ::
              s.generatedVideosHistory
          newVideoPrompt := ""
          view := View.history
          playingVideo := some newVideo
          isPlaying := true }
  { s' with isSaving := false }

/-- The whole `handleSaveEdit(originalVideo)` run as one function: start,
await `generateVideoFromText(originalVideo.description)`, finish.  The
trace is the workflow's external-call trace; the state result is `none`
when the polling loop is still running after `fuel` polls. -/
def handleSaveEdit (env : GenEnv) (apiKey : String) (fuel : Nat)
    (freshId : String) (now : Nat) (originalVideo : Video) (s : AppState) :
    List Ev × Option AppState :=
  let s1 := saveEditStart s
  match generateVideoFromText env apiKey fuel originalVideo.description 1 with
  | (tr, none) => (tr, none)
  | (tr, some outcome) => (tr, some (saveEditFinish originalVideo freshId now outcome s1))

/-- The whole `handleGenerateNewVideo()` run as one function: the blank
prompt early-returns with no external call and no state change; otherwise
start, await `generateVideoFromText(newVideoPrompt.trim())`, finish. -/
def handleGenerateNewVideo (env : GenEnv) (apiKey : String) (fuel : Nat)
    (freshId : String) (now : Nat) (s : AppState) :
    List Ev × Option AppState :=
  if jsTrim s.newVideoPrompt = "" then ([], some s)
  else
    let promptText := jsTrim s.newVideoPrompt
    let s1 := generateNewStart s
    match generateVideoFromText env apiKey fuel promptText 1 with
    | (tr, none) => (tr, none)
    | (tr, some outcome) =>
      (tr, some (generateNewFinish promptText freshId now outcome s1))

/-- What the `HistoryPage` component renders: the empty-state message, or
the list of history cards in order. -/
inductive HistoryRender where
  | emptyState
  | cards (videos : List HistoryVideo)
deriving DecidableEq, Repr

/-- `HistoryPage`: with no videos, render the empty-state message;
otherwise render the cards of a sorted copy of the list
(`[...videos].sort((a, b) => b.createdAt.getTime() - a.createdAt.getTime())`,
a stable sort putting the newest first; the input list is not mutated). -/
def HistoryPage (videos : List HistoryVideo) : HistoryRender :=
  if videos.length = 0 then HistoryRender.emptyState
  else
    HistoryRender.cards
      (videos.mergeSort (fun a b => b.createdAt ≤ a.createdAt))

/-- `new GoogleGenAI({apiKey: process.env.API_KEY})`: the SDK client
configuration, which the program builds from the environment key. -/
structure GoogleGenAI where
  apiKey : String
deriving DecidableEq, Repr

/-- `const ai = new GoogleGenAI({apiKey: process.env.API_KEY})`, as a
function of the `process.env.API_KEY` value. -/
def ai (envApiKey : String) : GoogleGenAI :=
  { apiKey := envApiKey }

/-- The page the `App` component returns: the saving screen replaces
everything while `isSaving`; otherwise the edit page when a video is being
edited; otherwise the main page showing the current view. -/
inductive Page where
  | savingProgress (message : String)
  | editPage (video : Video)
  | mainPage (view : View)
deriving DecidableEq, Repr

/-- The top-level render decision of `App` (`if (isSaving) return
<SavingProgressPage/>`, then `editingVideo ? <EditVideoPage/> : main`). -/
def renderPage (s : AppState) : Page :=
  if s.isSaving then Page.savingProgress s.savingMessage
  else
    match s.editingVideo with
    | some v => Page.editPage v
    | none => Page.mainPage s.view

/-- `disabled={!newVideoPrompt.trim() || isSaving}` on the Generate
button. -/
def generateButtonDisabled (s : AppState) : Bool :=
  (jsTrim s.newVideoPrompt).isEmpty || s.isSaving

/-- `{isPlaying && playingVideo && <VideoPlayer/>}` — but nothing below
the early `return` renders while `isSaving`. -/
def playerShown (s : AppState) : Bool :=
  !s.isSaving && s.isPlaying && s.playingVideo.isSome

/-- The main page (prompt box, nav, grids) is mounted: not saving and not
editing. -/
def mainVisible (s : AppState) : Bool :=
  !s.isSaving && s.editingVideo.isNone

/-- No full-screen overlay intercepts clicks on the main page: the video
player (`fixed inset-0 z-50`) is closed and the error modal is closed. -/
def overlayFree (s : AppState) : Bool :=
  !playerShown s && s.generationError.isNone

/-- The request a handler has in flight while awaiting
`generateVideoFromText`: which handler it is and the argument it captured
at call time. -/
inductive PendingReq where
  | saveEdit (originalVideo : Video)
  | generateNew (promptText : String)
deriving DecidableEq, Repr

/-- Browser persistent storage (e.g. `localStorage`), a key-value store.
The application code never calls any storage API; the field exists in the
system state so that "nothing is written to persistent storage" is a
statable frame property. -/
abbrev Storage : Type := List (String × String)

/-- The full system state: the `App` component state, the request in
flight (if any), and the browser's persistent storage. -/
structure SysState where
  app : AppState
  pending : Option PendingReq
  storage : Storage

/-- Page load: the `App` mounts with its initial `useState` values; the
persistent storage is whatever it was, and is not read. -/
def initSys (mockVideos : List Video) (storage : Storage) : SysState :=
  { app := initialAppState mockVideos, pending := none, storage := storage }

/-- The events the system reacts to: every user-triggerable callback of
the rendered tree, plus `resolve`, the settling of the in-flight
`generateVideoFromText` promise (with the fresh UUID and current date the
continuation then draws). -/
inductive UIAction where
  | playVideo (v : Video)
  | closePlayer
  | videoLoaded
  | startEdit (v : Video)
  | cancelEdit
  | saveEdit (v : Video)
  | setPrompt (p : String)
  | generateNew
  | setView (v : View)
  | closeError
  | resolve (outcome : Except String (List (Option String)))
      (freshId : String) (now : Nat)

/-- `handlePlayVideo`. -/
def handlePlayVideo (v : Video) (s : AppState) : AppState :=
  { s with
    loadingVideoId := some v.id
    playingVideo := some v
    isPlaying := true }

/-- `handleClosePlayer`. -/
def handleClosePlayer (s : AppState) : AppState :=
  { s with playingVideo := none, loadingVideoId := none, isPlaying := false }

/-- `handleVideoLoaded`. -/
def handleVideoLoaded (s : AppState) : AppState :=
  { s with loadingVideoId := none }

/-- `handleStartEdit`. -/
def handleStartEdit (v : Video) (s : AppState) : AppState :=
  { s with
    playingVideo := none
    isPlaying := false
    loadingVideoId := none
    editingVideo := some v }

/-- `handleCancelEdit`. -/
def handleCancelEdit (s : AppState) : AppState :=
  { s with editingVideo := none }

/-- One step of the system.  Each user action is guarded by its callback
being reachable in the rendered tree (`renderPage`, overlays); `none`
means the action is impossible in that state.  The two generation actions
only run the synchronous prefix of their handler and record the pending
request; `resolve` runs the continuation.  Persistent storage is never
touched. -/
def appStep (a : UIAction) (st : SysState) : Option SysState :=
  let s := st.app
  match a with
  | UIAction.playVideo v =>
    if mainVisible s && overlayFree s then
      some { st with app := handlePlayVideo v s }
    else none
  | UIAction.closePlayer =>
    if playerShown s then some { st with app := handleClosePlayer s }
    else none
  | UIAction.videoLoaded =>
    if playerShown s then some { st with app := handleVideoLoaded s }
    else none
  | UIAction.startEdit v =>
    if playerShown s && decide (s.playingVideo = some v) then
      some { st with app := handleStartEdit v s }
    else none
  | UIAction.cancelEdit =>
    if !s.isSaving && s.editingVideo.isSome then
      some { st with app := handleCancelEdit s }
    else none
  | UIAction.saveEdit v =>
    if !s.isSaving && s.editingVideo.isSome then
      some { st with
              app := saveEditStart s
              pending := some (PendingReq.saveEdit v) }
    else none
  | UIAction.setPrompt p =>
    if mainVisible s && overlayFree s then
      some { st with app := { s with newVideoPrompt := p } }
    else none
  | UIAction.generateNew =>
    if mainVisible s && overlayFree s && !generateButtonDisabled s then
      some { st with
              app := generateNewStart s
              pending := some (PendingReq.generateNew (jsTrim s.newVideoPrompt)) }
    else none
  | UIAction.setView v =>
    if mainVisible s && overlayFree s then
      some { st with app := { s with view := v } }
    else none
  | UIAction.closeError =>
    if !s.isSaving && s.generationError.isSome then
      some { st with app := { s with generationError := none } }
    else none
  | UIAction.resolve outcome freshId now =>
    match st.pending with
    | none => none
    | some (PendingReq.saveEdit v) =>
      some { st with
              app := saveEditFinish v freshId now outcome s
              pending := none }
    | some (PendingReq.generateNew p) =>
      some { st with
              app := generateNewFinish p freshId now outcome s
              pending := none }

/-- States reachable from a page load by system steps. -/
inductive Reachable (mockVideos : List Video) : SysState → Prop
  | init (storage : Storage) : Reachable mockVideos (initSys mockVideos storage)
  | next {st st' : SysState} (a : UIAction) :
      Reachable mockVideos st → appStep a st = some st' →
      Reachable mockVideos st'

/-- Whether an event is the `ai.models.generateVideos` SDK call. -/
def isCreateEv : Ev → Bool
  | Ev.createCall _ => true
  | _ => false

/-- Whether a step of the remote status sequence makes the polling loop
exit: a thrown poll, or an operation that reports done. -/
def isExit : Except String Operation → Bool
  | Except.error _ => true
  | Except.ok op => op.done

/-- The remote operation as the loop would see it after `n` more polls,
starting from `op0` with next poll index `i`: the status sequence the job
returns, with errors and done states absorbing. -/
def opAfter (env : GenEnv) (i : Nat) (op0 : Operation) :
    Nat → Except String Operation
  | 0 => Except.ok op0
  | n + 1 =>
    match opAfter env i op0 n with
    | Except.error e => Except.error e
    | Except.ok op =>
      if op.done then Except.ok op else env.poll (i + n) op

/-- Two traced events are equal up to the API key appended to a fetch
URL: identical except that a fetch of `p&key=k₁` corresponds to a fetch
of `p&key=k₂`. -/
def KeyRel (k₁ k₂ : String) : Ev → Ev → Prop
  | Ev.createCall r, Ev.createCall r' => r = r'
  | Ev.pollCall, Ev.pollCall => True
  | Ev.fetchCall u₁, Ev.fetchCall u₂ =>
    ∃ p, u₁ = p ++ "&key=" ++ k₁ ∧ u₂ = p ++ "&key=" ++ k₂
  | _, _ => False

/-- An operation that is not done (a job still running). -/
def notDoneOp : Operation := { done := false, response := none }

/-- A remote job that never finishes: creation succeeds but every poll
returns a not-done operation. -/
def envNeverDone : GenEnv :=
  { create := fun _ => Except.ok notDoneOp
    poll := fun _ _ => Except.ok notDoneOp
    fetch := fun _ => Except.error "unreached"
    decodeURIComponent := id
    readAsDataURL := id }

/-- An environment in which job creation itself throws. -/
def envCreateErr : GenEnv :=
  { create := fun _ => Except.error "creation failed"
    poll := fun _ _ => Except.error "creation failed"
    fetch := fun _ => Except.error "creation failed"
    decodeURIComponent := id
    readAsDataURL := id }

/-- A done operation holding one generated video, for happy-path
witnesses. -/
def doneOp : Operation :=
  { done := true
    response := some { generatedVideos := some [{ video := { uri := "u" } }] } }

/-- A happy-path environment: the first poll reports done with one video,
the fetch succeeds, and the `FileReader` yields a well-formed data URL. -/
def envSuccess : GenEnv :=
  { create := fun _ => Except.ok notDoneOp
    poll := fun _ _ => Except.ok doneOp
    fetch := fun _ =>
      Except.ok { ok := true, status := 200, statusText := "OK", blob := "B" }
    decodeURIComponent := id
    readAsDataURL := fun _ => "data:video/mp4;base64,QUJD" }

/-- An initial app state whose prompt box holds `hi`. -/
def sPrompted : AppState :=
  { initialAppState [] with newVideoPrompt := "hi" }

/-- A sample video, for witnesses. -/
def sampleVideo : Video :=
  { id := "v1", videoUrl := "http://example/v1", title := "T", description := "D" }

/-- A state in the middle of a generation request, for witnesses. -/
def sInFlight : SysState :=
  { app := generateNewStart sPrompted
    pending := some (PendingReq.generateNew "hi")
    storage := [] }

/-- A state showing an error modal over non-empty storage, for
witnesses. -/
def sWithError : SysState :=
  { app := { initialAppState [] with generationError := some genFailMsg }
    pending := none
    storage := [("k", "v")] }

/-- `sWithError` after the error modal is closed. -/
def sWithErrorClosed : SysState :=
  { app := { initialAppState [] with generationError := none }
    pending := none
    storage := [("k", "v")] }

/-- Sample history entries for the `HistoryPage` witness: `hvOld` was
created before `hvNew`. -/
def hvOld : HistoryVideo :=
  { toVideo := { id := "h1", videoUrl := "u1", title := "t1", description := "d1" }
    createdAt := 1 }

/-- The newer sample history entry. -/
def hvNew : HistoryVideo :=
  { toVideo := { id := "h2", videoUrl := "u2", title := "t2", description := "d2" }
    createdAt := 5 }

/-- The cross-state invariant of the step system: a playing modal has a
video, saving excludes the edit page and the player, an open edit page
excludes the player, and a request is pending exactly while
`isSaving`. -/
def SysInv (st : SysState) : Prop :=
  (st.app.isPlaying = true → st.app.playingVideo.isSome = true) ∧
  (st.app.isSaving = true → st.app.editingVideo = none) ∧
  (st.app.isSaving = true → st.app.isPlaying = false) ∧
  (st.app.editingVideo.isSome = true → st.app.isPlaying = false) ∧
  (st.pending.isSome = st.app.isSaving)

/-- `sInFlight` after its request settles with an error, for witnesses. -/
def sInFlightResolved : SysState :=
  { app := generateNewFinish "hi" "id" 0 (Except.error "e") sInFlight.app
    pending := none
    storage := [] }

/-! ## Helper lemmas -/

theorem pollLoop_trace_replicate (env : GenEnv) :
    ∀ fuel op i, (pollLoop env fuel op i).1 =
      List.replicate (pollLoop env fuel op i).1.length Ev.pollCall := by
  intro fuel
  induction fuel with
  | zero => intro op i; by_cases h : op.done <;> simp [pollLoop, h]
  | succ fuel ih =>
    intro op i
    by_cases h : op.done
    · simp [pollLoop, h]
    · cases hp : env.poll i op with
      | error e => simp [pollLoop, h, hp]
      | ok op' =>
        simp [pollLoop, h, hp, List.replicate_succ]
        exact ih op' (i + 1)

theorem pollLoop_ok_done (env : GenEnv) :
    ∀ fuel op i op', (pollLoop env fuel op i).2 = some (Except.ok op') →
      op'.done = true := by
  intro fuel
  induction fuel with
  | zero =>
    intro op i op' h
    by_cases hd : op.done <;> simp [pollLoop, hd] at h
    exact h ▸ hd
  | succ fuel ih =>
    intro op i op' h
    by_cases hd : op.done
    · simp [pollLoop, hd] at h
      exact h ▸ hd
    · cases hp : env.poll i op with
      | error e => simp [pollLoop, hd, hp] at h
      | ok op'' =>
        simp [pollLoop, hd, hp] at h
        exact ih op'' (i + 1) op' h

theorem fetchAll_ok (env : GenEnv) (key : String) :
    ∀ gvs tr objs, fetchAll env key gvs = (tr, Except.ok objs) →
      tr = gvs.map (fun gv => Ev.fetchCall
          (env.decodeURIComponent gv.video.uri ++ "&key=" ++ key)) ∧
      List.Forall₂ (fun (gv : GeneratedVideo) (obj : Option String) =>
        ∃ res, env.fetch (env.decodeURIComponent gv.video.uri ++ "&key=" ++ key) =
            Except.ok res ∧ res.ok = true ∧ obj = bloblToBase64 env res.blob)
        gvs objs := by
  intro gvs
  induction gvs with
  | nil =>
    intro tr objs h
    simp only [fetchAll, Prod.mk.injEq, Except.ok.injEq] at h
    obtain ⟨h1, h2⟩ := h
    subst h1
    subst h2
    exact ⟨rfl, List.Forall₂.nil⟩
  | cons gv rest ih =>
    intro tr objs h
    cases hf : env.fetch (env.decodeURIComponent gv.video.uri ++ "&key=" ++ key) with
    | error e =>
      simp only [fetchAll, fetchVideoObject, hf] at h
      exact absurd (congrArg Prod.snd h) (by simp)
    | ok res =>
      by_cases hok : res.ok
      · cases hr : fetchAll env key rest with
        | mk tr' r' =>
          cases r' with
          | error e =>
            simp only [fetchAll, fetchVideoObject, hf, hok, hr] at h
            exact absurd (congrArg Prod.snd h) (by simp)
          | ok vs =>
            simp only [fetchAll, fetchVideoObject, hf, hok, hr,
              Bool.not_true, Bool.false_eq_true, if_false,
              Prod.mk.injEq, Except.ok.injEq] at h
            obtain ⟨h1, h2⟩ := h
            subst h1
            subst h2
            obtain ⟨ihtr, ihf⟩ := ih tr' vs hr
            subst ihtr
            refine ⟨rfl, List.Forall₂.cons ⟨res, hf, hok, rfl⟩ ihf⟩
      · have hok' : res.ok = false := by
          cases hr2 : res.ok
          · rfl
          · exact absurd hr2 hok
        simp only [fetchAll, fetchVideoObject, hf, hok', Bool.not_false,
          if_true] at h
        exact absurd (congrArg Prod.snd h) (by simp)

theorem fetchAll_trace_shape (env : GenEnv) (key : String) :
    ∀ gvs, ∀ ev ∈ (fetchAll env key gvs).1,
      ∃ uri, ev = Ev.fetchCall (env.decodeURIComponent uri ++ "&key=" ++ key) := by
  intro gvs
  induction gvs with
  | nil => intro ev hev; simp [fetchAll] at hev
  | cons gv rest ih =>
    intro ev hev
    cases hf : env.fetch (env.decodeURIComponent gv.video.uri ++ "&key=" ++ key) with
    | error e =>
      simp [fetchAll, fetchVideoObject, hf] at hev
      exact ⟨gv.video.uri, by simp [hev]⟩
    | ok res =>
      by_cases hok : res.ok = true
      · cases hr : fetchAll env key rest with
        | mk tr' r' =>
          have hsplit : ev = Ev.fetchCall
              (env.decodeURIComponent gv.video.uri ++ "&key=" ++ key) ∨
              ev ∈ tr' := by
            cases r' with
            | error e =>
              simp only [fetchAll, fetchVideoObject, hf, hok, Bool.not_true,
                Bool.false_eq_true, if_false, hr] at hev
              simpa using hev
            | ok vs =>
              simp only [fetchAll, fetchVideoObject, hf, hok, Bool.not_true,
                Bool.false_eq_true, if_false, hr] at hev
              simpa using hev
          rcases hsplit with h1 | h2
          · exact ⟨gv.video.uri, h1⟩
          · refine ih ev ?_
            rw [hr]
            exact h2
      · have hok' : res.ok = false := by
          cases hr2 : res.ok
          · rfl
          · exact absurd hr2 hok
        simp [fetchAll, fetchVideoObject, hf, hok'] at hev
        exact ⟨gv.video.uri, by simp [hev]⟩

theorem generateVideoFromText_trace (env : GenEnv) (key : String)
    (fuel : Nat) (p : String) (n : Nat) :
    ∃ ptr ftr, (generateVideoFromText env key fuel p n).1 =
      Ev.createCall ⟨VEO_MODEL_NAME, p, n, "16:9"⟩ :: (ptr ++ ftr) ∧
      (∀ ev ∈ ptr, ev = Ev.pollCall) ∧
      (∀ ev ∈ ftr, ∃ uri,
        ev = Ev.fetchCall (env.decodeURIComponent uri ++ "&key=" ++ key)) := by
  cases hc : env.create ⟨VEO_MODEL_NAME, p, n, "16:9"⟩ with
  | error e =>
    refine ⟨[], [], ?_, by simp, by simp⟩
    simp [generateVideoFromText, hc]
  | ok op0 =>
    have hpoll : ∀ ev ∈ (pollLoop env fuel op0 0).1, ev = Ev.pollCall := by
      intro ev hev
      exact List.eq_of_mem_replicate
        ((pollLoop_trace_replicate env fuel op0 0) ▸ hev)
    cases hpl : (pollLoop env fuel op0 0).2 with
    | none =>
      refine ⟨(pollLoop env fuel op0 0).1, [], ?_, hpoll, by simp⟩
      simp [generateVideoFromText, hc, hpl]
    | some r =>
      cases r with
      | error e =>
        refine ⟨(pollLoop env fuel op0 0).1, [], ?_, hpoll, by simp⟩
        simp [generateVideoFromText, hc, hpl]
      | ok op =>
        cases hresp : op.response with
        | none =>
          refine ⟨(pollLoop env fuel op0 0).1, [], ?_, hpoll, by simp⟩
          simp [generateVideoFromText, hc, hpl, hresp]
        | some resp =>
          cases hgv : resp.generatedVideos with
          | none =>
            refine ⟨(pollLoop env fuel op0 0).1, [], ?_, hpoll, by simp⟩
            simp [generateVideoFromText, hc, hpl, hresp, hgv]
          | some videos =>
            by_cases hlen : videos.length = 0
            · refine ⟨(pollLoop env fuel op0 0).1, [], ?_, hpoll, by simp⟩
              simp [generateVideoFromText, hc, hpl, hresp, hgv, hlen]
            · refine ⟨(pollLoop env fuel op0 0).1,
                (fetchAll env key videos).1, ?_, hpoll,
                fetchAll_trace_shape env key videos⟩
              simp [generateVideoFromText, hc, hpl, hresp, hgv, hlen]

/-! ## C9: blank prompt is a no-op -/

/-- C9: if the new-video prompt is empty or whitespace-only
(`!newVideoPrompt.trim()`), `handleGenerateNewVideo` returns immediately:
no external call is made (empty trace) and the state is returned
unchanged. -/
theorem blank_prompt_noop (env : GenEnv) (apiKey : String) (fuel : Nat)
    (freshId : String) (now : Nat) (s : AppState)
    (h : jsTrim s.newVideoPrompt = "") :
    handleGenerateNewVideo env apiKey fuel freshId now s = ([], some s) := by
  simp [handleGenerateNewVideo, h]

/-- Witness for C9 at the initial state, whose prompt is empty. -/
theorem blank_prompt_noop_witness :
    jsTrim (initialAppState []).newVideoPrompt = "" ∧
    handleGenerateNewVideo envNeverDone "key" 0 "id" 0 (initialAppState []) =
      ([], some (initialAppState [])) :=
  ⟨by decide, blank_prompt_noop envNeverDone "key" 0 "id" 0 (initialAppState [])
    (by decide)⟩

/-! ## C10: HistoryPage rendering -/

/-- C10: `HistoryPage` renders the empty-state message for an empty
history, and otherwise renders the history cards sorted newest-first by
`createdAt` — a permutation of the (unmutated) input sorted in descending
`createdAt` order. -/
theorem historyPage_sorted (videos : List HistoryVideo) :
    (videos = [] → HistoryPage videos = HistoryRender.emptyState) ∧
    (videos ≠ [] → ∃ l, HistoryPage videos = HistoryRender.cards l ∧
      l.Pairwise (fun a b => b.createdAt ≤ a.createdAt) ∧ l.Perm videos) := by
  constructor
  · intro h
    subst h
    rfl
  · intro h
    have hlen : ¬videos.length = 0 := by
      simpa using h
    refine ⟨videos.mergeSort (fun a b => b.createdAt ≤ a.createdAt),
      by simp [HistoryPage, hlen], ?_, List.mergeSort_perm _ _⟩
    have hs := @List.sorted_mergeSort HistoryVideo
      (fun a b : HistoryVideo => decide (b.createdAt ≤ a.createdAt))
      (fun a b c h₁ h₂ => by
        simp only [decide_eq_true_eq] at h₁ h₂ ⊢
        exact Nat.le_trans h₂ h₁)
      (fun a b => by
        simp only [Bool.or_eq_true, decide_eq_true_eq]
        exact Nat.le_total b.createdAt a.createdAt)
      videos
    refine hs.imp ?_
    intro a b hab
    simpa using hab

/-- Witness for C10 on a concrete two-element history, older entry
first. -/
theorem historyPage_sorted_witness :
    ([hvOld, hvNew] ≠ ([] : List HistoryVideo)) ∧
    (∃ l, HistoryPage [hvOld, hvNew] = HistoryRender.cards l ∧
      l.Pairwise (fun a b => b.createdAt ≤ a.createdAt) ∧
      l.Perm [hvOld, hvNew]) :=
  ⟨by decide, (historyPage_sorted [hvOld, hvNew]).2 (by decide)⟩

/-! ## C3: a single catch-all error path -/

/-- C3: whatever error `generateVideoFromText` surfaces (thrown job
creation, thrown poll, empty result, failed blob fetch — all of which it
reports as `Except.error`), both handlers handle it identically: the
final state is the pre-request state with only the fixed two-line
catch-all message set and `isSaving` cleared, the trace is exactly the
single run's trace (no retry), and the message is the same fixed pair of
strings in both. -/
theorem generation_error_catch_all (env₁ env₂ : GenEnv) (k₁ k₂ : String)
    (f₁ f₂ : Nat) (id₁ id₂ : String) (n₁ n₂ : Nat) (v : Video)
    (s₁ s₂ : AppState) (tr₁ tr₂ : List Ev) (e₁ e₂ : String)
    (hsv : generateVideoFromText env₁ k₁ f₁ v.description 1 =
      (tr₁, some (Except.error e₁)))
    (hgn : jsTrim s₂.newVideoPrompt ≠ "")
    (hgen : generateVideoFromText env₂ k₂ f₂ (jsTrim s₂.newVideoPrompt) 1 =
      (tr₂, some (Except.error e₂))) :
    handleSaveEdit env₁ k₁ f₁ id₁ n₁ v s₁ =
      (tr₁, some { saveEditStart s₁ with
        generationError := some genFailMsg, isSaving := false }) ∧
    handleGenerateNewVideo env₂ k₂ f₂ id₂ n₂ s₂ =
      (tr₂, some { generateNewStart s₂ with
        generationError := some genFailMsg, isSaving := false }) ∧
    genFailMsg = ["Video generation failed.",
      "This may be due to an invalid API key or network issues."] := by
  refine ⟨?_, ?_, rfl⟩
  · simp [handleSaveEdit, hsv, saveEditFinish, saveEditStart]
  · simp [handleGenerateNewVideo, hgn, hgen, generateNewFinish,
      generateNewStart]

/-- Witness for C3: a concrete environment whose job creation throws. -/
theorem generation_error_catch_all_witness :
    generateVideoFromText envCreateErr "k" 0 sampleVideo.description 1 =
      ([Ev.createCall ⟨VEO_MODEL_NAME, sampleVideo.description, 1, "16:9"⟩],
        some (Except.error "creation failed")) ∧
    jsTrim sPrompted.newVideoPrompt ≠ "" ∧
    generateVideoFromText envCreateErr "k" 0 (jsTrim sPrompted.newVideoPrompt) 1 =
      ([Ev.createCall ⟨VEO_MODEL_NAME, "hi", 1, "16:9"⟩],
        some (Except.error "creation failed")) ∧
    (handleSaveEdit envCreateErr "k" 0 "id" 0 sampleVideo sPrompted =
      ([Ev.createCall ⟨VEO_MODEL_NAME, sampleVideo.description, 1, "16:9"⟩],
        some { saveEditStart sPrompted with
          generationError := some genFailMsg, isSaving := false }) ∧
    handleGenerateNewVideo envCreateErr "k" 0 "id" 0 sPrompted =
      ([Ev.createCall ⟨VEO_MODEL_NAME, "hi", 1, "16:9"⟩],
        some { generateNewStart sPrompted with
          generationError := some genFailMsg, isSaving := false }) ∧
    genFailMsg = ["Video generation failed.",
      "This may be due to an invalid API key or network issues."]) :=
  ⟨by rfl, by decide, by rfl,
    by
      have h := generation_error_catch_all envCreateErr envCreateErr "k" "k"
        0 0 "id" "id" 0 0 sampleVideo sPrompted sPrompted
        [Ev.createCall ⟨VEO_MODEL_NAME, sampleVideo.description, 1, "16:9"⟩]
        [Ev.createCall ⟨VEO_MODEL_NAME, "hi", 1, "16:9"⟩]
        "creation failed" "creation failed"
        (by rfl) (by decide) (by rfl)
      exact h⟩

/-! ## C5: what changes and what does not on failure -/

/-- C5 counterexample: on a failing generation, `savingMessage` also
changes (it keeps the in-progress text set before the request), so the
failure effect is not limited to the error message and `isSaving`.  Here
the initial `savingMessage` is empty but the failed
`handleGenerateNewVideo` leaves it set to the progress text. -/
theorem generation_failure_savingMessage_changes :
    sPrompted.savingMessage = "" ∧
    (handleGenerateNewVideo envCreateErr "k" 0 "id" 0 sPrompted).2.map
      (fun t => t.savingMessage) = some "Generating your video..." := by
  exact ⟨rfl, by rfl⟩

/-- C5 as amended: if `generateVideoFromText` throws, then in both
handlers the video list, history list, view, prompt text, playing state
and loading state are unchanged; the error message is set, `isSaving` is
reset to false, `savingMessage` keeps the in-progress text set before the
request, and `handleSaveEdit` additionally leaves the edit page closed
(`editingVideo := none`, cleared before the request). -/
theorem generation_failure_atomic (env₁ env₂ : GenEnv) (k₁ k₂ : String)
    (f₁ f₂ : Nat) (id₁ id₂ : String) (n₁ n₂ : Nat) (v : Video)
    (s₁ s₂ : AppState) (tr₁ tr₂ : List Ev) (e₁ e₂ : String)
    (hsv : generateVideoFromText env₁ k₁ f₁ v.description 1 =
      (tr₁, some (Except.error e₁)))
    (hgn : jsTrim s₂.newVideoPrompt ≠ "")
    (hgen : generateVideoFromText env₂ k₂ f₂ (jsTrim s₂.newVideoPrompt) 1 =
      (tr₂, some (Except.error e₂))) :
    (∃ s₁', handleSaveEdit env₁ k₁ f₁ id₁ n₁ v s₁ = (tr₁, some s₁') ∧
      s₁'.videos = s₁.videos ∧
      s₁'.generatedVideosHistory = s₁.generatedVideosHistory ∧
      s₁'.view = s₁.view ∧
      s₁'.newVideoPrompt = s₁.newVideoPrompt ∧
      s₁'.playingVideo = s₁.playingVideo ∧
      s₁'.isPlaying = s₁.isPlaying ∧
      s₁'.loadingVideoId = s₁.loadingVideoId ∧
      s₁'.generationError = some genFailMsg ∧
      s₁'.isSaving = false ∧
      s₁'.savingMessage = "Creating your remix..." ∧
      s₁'.editingVideo = none) ∧
    (∃ s₂', handleGenerateNewVideo env₂ k₂ f₂ id₂ n₂ s₂ = (tr₂, some s₂') ∧
      s₂'.videos = s₂.videos ∧
      s₂'.generatedVideosHistory = s₂.generatedVideosHistory ∧
      s₂'.view = s₂.view ∧
      s₂'.newVideoPrompt = s₂.newVideoPrompt ∧
      s₂'.playingVideo = s₂.playingVideo ∧
      s₂'.isPlaying = s₂.isPlaying ∧
      s₂'.loadingVideoId = s₂.loadingVideoId ∧
      s₂'.editingVideo = s₂.editingVideo ∧
      s₂'.generationError = some genFailMsg ∧
      s₂'.isSaving = false ∧
      s₂'.savingMessage = "Generating your video...") := by
  constructor
  · refine ⟨{ saveEditStart s₁ with
      generationError := some genFailMsg, isSaving := false }, ?_,
      by simp [saveEditStart], by simp [saveEditStart], by simp [saveEditStart],
      by simp [saveEditStart], by simp [saveEditStart], by simp [saveEditStart],
      by simp [saveEditStart], by simp [saveEditStart], rfl,
      by simp [saveEditStart], by simp [saveEditStart]⟩
    simp [handleSaveEdit, hsv, saveEditFinish, saveEditStart]
  · refine ⟨{ generateNewStart s₂ with
      generationError := some genFailMsg, isSaving := false }, ?_,
      by simp [generateNewStart], by simp [generateNewStart],
      by simp [generateNewStart], by simp [generateNewStart],
      by simp [generateNewStart], by simp [generateNewStart],
      by simp [generateNewStart], by simp [generateNewStart], rfl,
      by simp [generateNewStart], by simp [generateNewStart]⟩
    simp [handleGenerateNewVideo, hgn, hgen, generateNewFinish,
      generateNewStart]

/-- Witness for the amended C5 at a concrete failing environment. -/
theorem generation_failure_atomic_witness :
    generateVideoFromText envCreateErr "k" 0 sampleVideo.description 1 =
      ([Ev.createCall ⟨VEO_MODEL_NAME, sampleVideo.description, 1, "16:9"⟩],
        some (Except.error "creation failed")) ∧
    jsTrim sPrompted.newVideoPrompt ≠ "" ∧
    generateVideoFromText envCreateErr "k" 0 (jsTrim sPrompted.newVideoPrompt) 1 =
      ([Ev.createCall ⟨VEO_MODEL_NAME, "hi", 1, "16:9"⟩],
        some (Except.error "creation failed")) ∧
    ((∃ s₁', handleSaveEdit envCreateErr "k" 0 "id" 0 sampleVideo sPrompted =
        ([Ev.createCall ⟨VEO_MODEL_NAME, sampleVideo.description, 1, "16:9"⟩],
          some s₁') ∧
      s₁'.videos = sPrompted.videos ∧
      s₁'.generatedVideosHistory = sPrompted.generatedVideosHistory ∧
      s₁'.view = sPrompted.view ∧
      s₁'.newVideoPrompt = sPrompted.newVideoPrompt ∧
      s₁'.playingVideo = sPrompted.playingVideo ∧
      s₁'.isPlaying = sPrompted.isPlaying ∧
      s₁'.loadingVideoId = sPrompted.loadingVideoId ∧
      s₁'.generationError = some genFailMsg ∧
      s₁'.isSaving = false ∧
      s₁'.savingMessage = "Creating your remix..." ∧
      s₁'.editingVideo = none) ∧
    (∃ s₂', handleGenerateNewVideo envCreateErr "k" 0 "id" 0 sPrompted =
        ([Ev.createCall ⟨VEO_MODEL_NAME, "hi", 1, "16:9"⟩], some s₂') ∧
      s₂'.videos = sPrompted.videos ∧
      s₂'.generatedVideosHistory = sPrompted.generatedVideosHistory ∧
      s₂'.view = sPrompted.view ∧
      s₂'.newVideoPrompt = sPrompted.newVideoPrompt ∧
      s₂'.playingVideo = sPrompted.playingVideo ∧
      s₂'.isPlaying = sPrompted.isPlaying ∧
      s₂'.loadingVideoId = sPrompted.loadingVideoId ∧
      s₂'.editingVideo = sPrompted.editingVideo ∧
      s₂'.generationError = some genFailMsg ∧
      s₂'.isSaving = false ∧
      s₂'.savingMessage = "Generating your video...")) :=
  ⟨by rfl, by decide, by rfl,
    generation_failure_atomic envCreateErr envCreateErr "k" "k" 0 0 "id" "id"
      0 0 sampleVideo sPrompted sPrompted
      [Ev.createCall ⟨VEO_MODEL_NAME, sampleVideo.description, 1, "16:9"⟩]
      [Ev.createCall ⟨VEO_MODEL_NAME, "hi", 1, "16:9"⟩]
      "creation failed" "creation failed"
      (by rfl) (by decide) (by rfl)⟩

/-! ## C1: the generation workflow, step by step -/

/-- C1: on a successful run for a submitted (non-blank) prompt, the
workflow is exactly: one `generateVideos` job creation with the prompt
(first event), a polling loop that exits only on a done operation, one
fetch per generated video whose blob is converted to base64, and then
exactly one new record prepended to both the video list and the history
list, holding the base64 data URL of the first video. -/
theorem generate_workflow_steps (env : GenEnv) (k : String) (fuel : Nat)
    (freshId : String) (now : Nat) (s : AppState) (tr : List Ev)
    (objs : List (Option String))
    (hp : jsTrim s.newVideoPrompt ≠ "")
    (hgen : generateVideoFromText env k fuel (jsTrim s.newVideoPrompt) 1 =
      (tr, some (Except.ok objs))) :
    ∃ s' newVideo kp urls op0 opF,
      handleGenerateNewVideo env k fuel freshId now s = (tr, some s') ∧
      env.create ⟨VEO_MODEL_NAME, jsTrim s.newVideoPrompt, 1, "16:9"⟩ =
        Except.ok op0 ∧
      pollLoop env fuel op0 0 =
        (List.replicate kp Ev.pollCall, some (Except.ok opF)) ∧
      opF.done = true ∧
      tr = Ev.createCall ⟨VEO_MODEL_NAME, jsTrim s.newVideoPrompt, 1, "16:9"⟩ ::
        (List.replicate kp Ev.pollCall ++ urls.map Ev.fetchCall) ∧
      List.Forall₂ (fun u obj => ∃ res, env.fetch u = Except.ok res ∧
        res.ok = true ∧ obj = bloblToBase64 env res.blob) urls objs ∧
      s'.videos = newVideo :: s.videos ∧
      s'.generatedVideosHistory =
        { toVideo := newVideo, createdAt := now } :: s.generatedVideosHistory ∧
      newVideo.videoUrl =
        "data:video/mp4;base64," ++ jsTemplateStr (objs.headD none) ∧
      s'.generationError = none := by
  have hhandler : handleGenerateNewVideo env k fuel freshId now s =
      (tr, some (generateNewFinish (jsTrim s.newVideoPrompt) freshId now
        (Except.ok objs) (generateNewStart s))) := by
    simp [handleGenerateNewVideo, hp, hgen]
  cases hc : env.create ⟨VEO_MODEL_NAME, jsTrim s.newVideoPrompt, 1, "16:9"⟩ with
  | error e => simp [generateVideoFromText, hc] at hgen
  | ok op0 =>
    cases hpl2 : (pollLoop env fuel op0 0).2 with
    | none => simp [generateVideoFromText, hc, hpl2] at hgen
    | some r =>
      cases r with
      | error e => simp [generateVideoFromText, hc, hpl2] at hgen
      | ok opF =>
        have hdone := pollLoop_ok_done env fuel op0 0 opF hpl2
        cases hresp : opF.response with
        | none => simp [generateVideoFromText, hc, hpl2, hresp] at hgen
        | some resp =>
          cases hgv : resp.generatedVideos with
          | none => simp [generateVideoFromText, hc, hpl2, hresp, hgv] at hgen
          | some videos =>
            by_cases hlen : videos.length = 0
            · simp [generateVideoFromText, hc, hpl2, hresp, hgv, hlen] at hgen
            · cases hfa : fetchAll env k videos with
              | mk ftr fres =>
                cases fres with
                | error e =>
                  simp [generateVideoFromText, hc, hpl2, hresp, hgv, hlen,
                    hfa] at hgen
                | ok objs' =>
                  simp only [generateVideoFromText, hc, hpl2, hresp, hgv,
                    hlen, hfa, if_false, Prod.mk.injEq, Option.some.injEq,
                    Except.ok.injEq] at hgen
                  obtain ⟨htr, hobjs⟩ := hgen
                  subst hobjs
                  obtain ⟨hftr, hfa2⟩ := fetchAll_ok env k videos ftr objs' hfa
                  have hlen2 : ¬objs'.length = 0 := by
                    rw [← hfa2.length_eq]
                    exact hlen
                  have hrep := pollLoop_trace_replicate env fuel op0 0
                  refine ⟨generateNewFinish (jsTrim s.newVideoPrompt) freshId
                      now (Except.ok objs') (generateNewStart s),
                    { id := freshId
                      videoUrl := "data:video/mp4;base64," ++
                        jsTemplateStr (objs'.headD none)
                      title := "Generated: \"" ++
                        (jsTrim s.newVideoPrompt).take 40 ++
                        (if (jsTrim s.newVideoPrompt).length > 40 then "..."
                          else "") ++ "\""
                      description := jsTrim s.newVideoPrompt },
                    (pollLoop env fuel op0 0).1.length,
                    videos.map (fun gv =>
                      env.decodeURIComponent gv.video.uri ++ "&key=" ++ k),
                    op0, opF,
                    hhandler, rfl, ?_, hdone, ?_, ?_, ?_, ?_, rfl, ?_⟩
                  · rw [Prod.ext_iff]
                    exact ⟨hrep, hpl2⟩
                  · rw [← htr, hftr]
                    rw [List.map_map]
                    rw [hrep]
                    simp [List.cons_append]
                  · rw [List.forall₂_map_left_iff]
                    exact hfa2
                  · simp [generateNewFinish, generateNewStart, hlen2]
                  · simp [generateNewFinish, generateNewStart, hlen2]
                  · simp [generateNewFinish, generateNewStart, hlen2]

/-- Witness for C1: a concrete happy-path environment with one poll, one
generated video, one successful fetch. -/
theorem generate_workflow_steps_witness :
    jsTrim sPrompted.newVideoPrompt ≠ "" ∧
    generateVideoFromText envSuccess "k" 1 (jsTrim sPrompted.newVideoPrompt) 1 =
      ([Ev.createCall ⟨VEO_MODEL_NAME, "hi", 1, "16:9"⟩, Ev.pollCall,
        Ev.fetchCall "u&key=k"], some (Except.ok [some "QUJD"])) ∧
    (∃ s' newVideo kp urls op0 opF,
      handleGenerateNewVideo envSuccess "k" 1 "id" 7 sPrompted =
        ([Ev.createCall ⟨VEO_MODEL_NAME, "hi", 1, "16:9"⟩, Ev.pollCall,
          Ev.fetchCall "u&key=k"], some s') ∧
      envSuccess.create
          ⟨VEO_MODEL_NAME, jsTrim sPrompted.newVideoPrompt, 1, "16:9"⟩ =
        Except.ok op0 ∧
      pollLoop envSuccess 1 op0 0 =
        (List.replicate kp Ev.pollCall, some (Except.ok opF)) ∧
      opF.done = true ∧
      [Ev.createCall ⟨VEO_MODEL_NAME, "hi", 1, "16:9"⟩, Ev.pollCall,
          Ev.fetchCall "u&key=k"] =
        Ev.createCall
            ⟨VEO_MODEL_NAME, jsTrim sPrompted.newVideoPrompt, 1, "16:9"⟩ ::
          (List.replicate kp Ev.pollCall ++ urls.map Ev.fetchCall) ∧
      List.Forall₂ (fun u obj => ∃ res, envSuccess.fetch u = Except.ok res ∧
        res.ok = true ∧ obj = bloblToBase64 envSuccess res.blob) urls
        [some "QUJD"] ∧
      s'.videos = newVideo :: sPrompted.videos ∧
      s'.generatedVideosHistory =
        { toVideo := newVideo, createdAt := 7 } ::
          sPrompted.generatedVideosHistory ∧
      newVideo.videoUrl =
        "data:video/mp4;base64," ++
          jsTemplateStr (([some "QUJD"] : List (Option String)).headD none) ∧
      s'.generationError = none) :=
  ⟨by decide, by rfl,
    generate_workflow_steps envSuccess "k" 1 "id" 7 sPrompted
      [Ev.createCall ⟨VEO_MODEL_NAME, "hi", 1, "16:9"⟩, Ev.pollCall,
        Ev.fetchCall "u&key=k"] [some "QUJD"] (by decide) (by rfl)⟩

/-! ## C2: the polling loop is not bounded -/

theorem opAfter_shift (env : GenEnv) (i : Nat) (op0 op1 : Operation)
    (hd : op0.done = false) (hp : env.poll i op0 = Except.ok op1) :
    ∀ n, opAfter env i op0 (n + 1) = opAfter env (i + 1) op1 n := by
  intro n
  induction n with
  | zero => simp [opAfter, hd, hp]
  | succ n ih =>
    have h1 : opAfter env i op0 (n + 1 + 1) =
        (match opAfter env i op0 (n + 1) with
          | Except.error e => Except.error e
          | Except.ok op => if op.done = true then Except.ok op
              else env.poll (i + (n + 1)) op) := rfl
    have h2 : opAfter env (i + 1) op1 (n + 1) =
        (match opAfter env (i + 1) op1 n with
          | Except.error e => Except.error e
          | Except.ok op => if op.done = true then Except.ok op
              else env.poll ((i + 1) + n) op) := rfl
    rw [h1, h2, ih]
    have hi : i + (n + 1) = i + 1 + n := by omega
    rw [hi]

theorem opAfter_error_absorb (env : GenEnv) (i : Nat) (op0 : Operation)
    (e : String) (hd : op0.done = false)
    (hp : env.poll i op0 = Except.error e) :
    ∀ n, opAfter env i op0 (n + 1) = Except.error e := by
  intro n
  induction n with
  | zero => simp [opAfter, hd, hp]
  | succ n ih =>
    have h1 : opAfter env i op0 (n + 1 + 1) =
        (match opAfter env i op0 (n + 1) with
          | Except.error e => Except.error e
          | Except.ok op => if op.done = true then Except.ok op
              else env.poll (i + (n + 1)) op) := rfl
    rw [h1, ih]

theorem pollLoop_isSome_iff (env : GenEnv) :
    ∀ fuel op0 i, ((pollLoop env fuel op0 i).2).isSome = true ↔
      ∃ n, n ≤ fuel ∧ isExit (opAfter env i op0 n) = true := by
  intro fuel
  induction fuel with
  | zero =>
    intro op0 i
    by_cases hd : op0.done
    · simp only [pollLoop, hd, if_true, Option.isSome_some]
      constructor
      · intro _
        exact ⟨0, Nat.le_refl 0, by simp [opAfter, isExit, hd]⟩
      · intro _
        trivial
    · have hd' : op0.done = false := by
        simpa using hd
      simp only [pollLoop, hd', Bool.false_eq_true, if_false,
        Option.isSome_none]
      constructor
      · intro h
        exact absurd h (by simp)
      · rintro ⟨n, hn, hex⟩
        have hn0 : n = 0 := Nat.le_zero.1 hn
        subst hn0
        simp [opAfter, isExit, hd'] at hex
  | succ fuel ih =>
    intro op0 i
    by_cases hd : op0.done
    · simp only [pollLoop, hd, if_true, Option.isSome_some]
      constructor
      · intro _
        exact ⟨0, Nat.zero_le _, by simp [opAfter, isExit, hd]⟩
      · intro _
        trivial
    · have hd' : op0.done = false := by
        simpa using hd
      cases hp : env.poll i op0 with
      | error e =>
        simp only [pollLoop, hd', Bool.false_eq_true, if_false, hp,
          Option.isSome_some]
        constructor
        · intro _
          refine ⟨1, by omega, ?_⟩
          rw [show (1 : Nat) = 0 + 1 from rfl,
            opAfter_error_absorb env i op0 e hd' hp 0]
          rfl
        · intro _
          trivial
      | ok op1 =>
        have hshift := opAfter_shift env i op0 op1 hd' hp
        have hL : ((pollLoop env (fuel + 1) op0 i).2) =
            (pollLoop env fuel op1 (i + 1)).2 := by
          simp [pollLoop, hd', hp]
        rw [hL, ih op1 (i + 1)]
        constructor
        · rintro ⟨n, hn, hex⟩
          refine ⟨n + 1, by omega, ?_⟩
          rw [hshift n]
          exact hex
        · rintro ⟨m, hm, hex⟩
          cases m with
          | zero => simp [opAfter, isExit, hd'] at hex
          | succ n =>
            refine ⟨n, by omega, ?_⟩
            rw [← hshift n]
            exact hex

theorem generateVideoFromText_one_create (env : GenEnv) (k : String)
    (fuel : Nat) (p : String) (n : Nat) :
    ((generateVideoFromText env k fuel p n).1.countP isCreateEv) = 1 := by
  obtain ⟨ptr, ftr, htr, hptr, hftr⟩ :=
    generateVideoFromText_trace env k fuel p n
  rw [htr]
  rw [List.countP_cons, List.countP_append]
  have h1 : ptr.countP isCreateEv = 0 := by
    rw [List.countP_eq_zero]
    intro ev hev
    rw [hptr ev hev]
    simp [isCreateEv]
  have h2 : ftr.countP isCreateEv = 0 := by
    rw [List.countP_eq_zero]
    intro ev hev
    obtain ⟨uri, huri⟩ := hftr ev hev
    rw [huri]
    simp [isCreateEv]
  simp [h1, h2, isCreateEv]

theorem pollLoop_neverDone_runs_forever :
    ∀ fuel i, (pollLoop envNeverDone fuel notDoneOp i).2 = none := by
  intro fuel
  induction fuel with
  | zero =>
    intro i
    have hdone : notDoneOp.done = false := rfl
    simp [pollLoop, hdone]
  | succ fuel ih =>
    intro i
    have hdone : notDoneOp.done = false := rfl
    have hpoll : envNeverDone.poll i notDoneOp = Except.ok notDoneOp := rfl
    simp [pollLoop, hdone, hpoll, ih]

/-- C2 counterexample: for the status sequence in which the remote job
never reports done, the polling loop never terminates — there is no poll
bound after which `generateVideoFromText` returns. -/
theorem polling_unbounded_counterexample :
    ¬ ∃ fuel,
      ((generateVideoFromText envNeverDone "key" fuel "p" 1).2).isSome = true := by
  rintro ⟨fuel, h⟩
  have hnone : (generateVideoFromText envNeverDone "key" fuel "p" 1).2 = none := by
    have hc : envNeverDone.create ⟨VEO_MODEL_NAME, "p", 1, "16:9"⟩ =
        Except.ok notDoneOp := rfl
    simp [generateVideoFromText, hc,
      pollLoop_neverDone_runs_forever fuel 0]
  rw [hnone] at h
  simp at h

/-- C2 as amended: the polling loop makes the `generateVideos` SDK call
exactly once per run (no retries), exits only with a done operation, and
terminates for exactly those remote status sequences that eventually
throw or report done — it is unbounded on the others. -/
theorem polling_loop_characterisation :
    (∀ env k fuel p n,
      ((generateVideoFromText env k fuel p n).1.countP isCreateEv) = 1) ∧
    (∀ env fuel op i op', (pollLoop env fuel op i).2 = some (Except.ok op') →
      op'.done = true) ∧
    (∀ env op0 i, (∃ fuel, ((pollLoop env fuel op0 i).2).isSome = true) ↔
      ∃ n, isExit (opAfter env i op0 n) = true) := by
  refine ⟨generateVideoFromText_one_create, pollLoop_ok_done, ?_⟩
  intro env op0 i
  constructor
  · rintro ⟨fuel, h⟩
    obtain ⟨n, _, hex⟩ := (pollLoop_isSome_iff env fuel op0 i).1 h
    exact ⟨n, hex⟩
  · rintro ⟨n, hex⟩
    exact ⟨n, (pollLoop_isSome_iff env n op0 i).2 ⟨n, Nat.le_refl n, hex⟩⟩

/-- Witness for the amended C2 at concrete runs. -/
theorem polling_loop_characterisation_witness :
    ((generateVideoFromText envSuccess "k" 1 "hi" 1).1.countP isCreateEv = 1) ∧
    doneOp.done = true ∧
    (∃ n, isExit (opAfter envSuccess 0 notDoneOp n) = true) :=
  ⟨polling_loop_characterisation.1 envSuccess "k" 1 "hi" 1,
    polling_loop_characterisation.2.1 envSuccess 1 notDoneOp 0 doneOp (by rfl),
    (polling_loop_characterisation.2.2 envSuccess notDoneOp 0).1 ⟨1, by rfl⟩⟩

/-! ## C4: one request in flight, serialised by `isSaving` -/

theorem saveEditFinish_isSaving (v : Video) (freshId : String) (now : Nat)
    (outcome : Except String (List (Option String))) (s : AppState) :
    (saveEditFinish v freshId now outcome s).isSaving = false := rfl

theorem generateNewFinish_isSaving (p : String) (freshId : String)
    (now : Nat) (outcome : Except String (List (Option String)))
    (s : AppState) :
    (generateNewFinish p freshId now outcome s).isSaving = false := rfl

/-- C4: while `isSaving` is true the whole UI is the saving screen, the
generate button is disabled, and neither generation action can fire, so
no second request can start; and when the in-flight request settles —
with success or failure — `isSaving` is false again.  Both handlers enter
the saving state before their request. -/
theorem saving_serialises_generation :
    (∀ st : SysState, st.app.isSaving = true →
      renderPage st.app = Page.savingProgress st.app.savingMessage ∧
      generateButtonDisabled st.app = true ∧
      (∀ v, appStep (UIAction.saveEdit v) st = none) ∧
      appStep UIAction.generateNew st = none ∧
      (∀ outcome freshId now st',
        appStep (UIAction.resolve outcome freshId now) st = some st' →
        st'.app.isSaving = false)) ∧
    (∀ s : AppState, (saveEditStart s).isSaving = true ∧
      (generateNewStart s).isSaving = true) := by
  constructor
  · intro st h
    refine ⟨by simp [renderPage, h], by simp [generateButtonDisabled, h],
      ?_, ?_, ?_⟩
    · intro v
      simp [appStep, h]
    · simp [appStep, mainVisible, h]
    · intro outcome freshId now st' hstep
      simp only [appStep] at hstep
      cases hpend : st.pending with
      | none => simp [hpend] at hstep
      | some req =>
        cases req with
        | saveEdit v =>
          simp only [hpend] at hstep
          obtain rfl := Option.some.inj hstep
          exact saveEditFinish_isSaving v freshId now outcome st.app
        | generateNew p =>
          simp only [hpend] at hstep
          obtain rfl := Option.some.inj hstep
          exact generateNewFinish_isSaving p freshId now outcome st.app
  · intro s
    exact ⟨rfl, rfl⟩

/-- Witness for C4 at a concrete in-flight state. -/
theorem saving_serialises_generation_witness :
    sInFlight.app.isSaving = true ∧
    renderPage sInFlight.app = Page.savingProgress sInFlight.app.savingMessage ∧
    generateButtonDisabled sInFlight.app = true ∧
    appStep (UIAction.saveEdit sampleVideo) sInFlight = none ∧
    appStep UIAction.generateNew sInFlight = none ∧
    appStep (UIAction.resolve (Except.error "e") "id" 0) sInFlight =
      some sInFlightResolved ∧
    sInFlightResolved.app.isSaving = false ∧
    (saveEditStart sPrompted).isSaving = true ∧
    (generateNewStart sPrompted).isSaving = true := by
  have h := saving_serialises_generation.1 sInFlight rfl
  have h2 := saving_serialises_generation.2 sPrompted
  exact ⟨rfl, h.1, h.2.1, h.2.2.1 sampleVideo, h.2.2.2.1,
    rfl, h.2.2.2.2 (Except.error "e") "id" 0 sInFlightResolved rfl,
    h2.1, h2.2⟩

/-! ## C6: the modal state machine -/

theorem band_true {a b : Bool} (h : (a && b) = true) :
    a = true ∧ b = true := by
  simp at h
  exact h

theorem saveEditFinish_editingVideo (v : Video) (freshId : String)
    (now : Nat) (outcome : Except String (List (Option String)))
    (s : AppState) :
    (saveEditFinish v freshId now outcome s).editingVideo = s.editingVideo := by
  cases outcome with
  | error e => rfl
  | ok objs =>
    by_cases hl : objs.length = 0 <;> simp [saveEditFinish, hl]

theorem generateNewFinish_editingVideo (p : String) (freshId : String)
    (now : Nat) (outcome : Except String (List (Option String)))
    (s : AppState) :
    (generateNewFinish p freshId now outcome s).editingVideo =
      s.editingVideo := by
  cases outcome with
  | error e => rfl
  | ok objs =>
    by_cases hl : objs.length = 0 <;> simp [generateNewFinish, hl]

theorem reachable_inv (mock : List Video) (st : SysState)
    (h : Reachable mock st) : SysInv st := by
  induction h with
  | init storage => simp [SysInv, initSys, initialAppState]
  | @next st st' a hr hstep ih =>
    obtain ⟨i1, i2, i3, i4, i5⟩ := ih
    cases a with
    | playVideo v =>
      simp only [appStep] at hstep
      split at hstep
      · rename_i hg
        obtain rfl := Option.some.inj hstep
        have hmv : mainVisible st.app = true := (band_true hg).1
        have hsv : st.app.isSaving = false := by
          have := (band_true hmv).1
          simpa using this
        have hed : st.app.editingVideo = none := by
          have := (band_true hmv).2
          simpa [Option.isNone_iff_eq_none] using this
        refine ⟨?_, ?_, ?_, ?_, ?_⟩
        · intro _
          rfl
        · simp [handlePlayVideo, hsv]
        · simp [handlePlayVideo, hsv]
        · simp [handlePlayVideo, hed]
        · simpa [handlePlayVideo] using i5
      · exact absurd hstep (by simp)
    | closePlayer =>
      simp only [appStep] at hstep
      split at hstep
      · rename_i hg
        obtain rfl := Option.some.inj hstep
        refine ⟨?_, i2, ?_, ?_, i5⟩
        · intro hp
          exact absurd hp (by simp [handleClosePlayer])
        · intro _
          rfl
        · intro _
          rfl
      · exact absurd hstep (by simp)
    | videoLoaded =>
      simp only [appStep] at hstep
      split at hstep
      · rename_i hg
        obtain rfl := Option.some.inj hstep
        exact ⟨i1, i2, i3, i4, i5⟩
      · exact absurd hstep (by simp)
    | startEdit v =>
      simp only [appStep] at hstep
      split at hstep
      · rename_i hg
        obtain rfl := Option.some.inj hstep
        have hps : playerShown st.app = true := (band_true hg).1
        have hsv : st.app.isSaving = false := by
          have := (band_true (band_true hps).1).1
          simpa using this
        refine ⟨?_, ?_, ?_, ?_, ?_⟩
        · intro hp
          exact absurd hp (by simp [handleStartEdit])
        · simp [handleStartEdit, hsv]
        · intro _
          rfl
        · intro _
          rfl
        · simpa [handleStartEdit] using i5
      · exact absurd hstep (by simp)
    | cancelEdit =>
      simp only [appStep] at hstep
      split at hstep
      · rename_i hg
        obtain rfl := Option.some.inj hstep
        refine ⟨i1, ?_, i3, ?_, i5⟩
        · intro _
          rfl
        · intro h4
          exact absurd h4 (by simp [handleCancelEdit])
      · exact absurd hstep (by simp)
    | saveEdit v =>
      simp only [appStep] at hstep
      split at hstep
      · rename_i hg
        obtain rfl := Option.some.inj hstep
        have hed : st.app.editingVideo.isSome = true :=
          (band_true hg).2
        have hipf : st.app.isPlaying = false := i4 hed
        refine ⟨?_, ?_, ?_, ?_, ?_⟩
        · intro hp
          exact absurd hp (by simp [saveEditStart, hipf])
        · intro _
          rfl
        · intro _
          exact hipf
        · intro h4
          exact absurd h4 (by simp [saveEditStart])
        · rfl
      · exact absurd hstep (by simp)
    | setPrompt p =>
      simp only [appStep] at hstep
      split at hstep
      · rename_i hg
        obtain rfl := Option.some.inj hstep
        exact ⟨i1, i2, i3, i4, i5⟩
      · exact absurd hstep (by simp)
    | generateNew =>
      simp only [appStep] at hstep
      split at hstep
      · rename_i hg
        obtain rfl := Option.some.inj hstep
        have hmv : mainVisible st.app = true :=
          (band_true (band_true hg).1).1
        have hov : overlayFree st.app = true :=
          (band_true (band_true hg).1).2
        have hsv : st.app.isSaving = false := by
          have := (band_true hmv).1
          simpa using this
        have hed : st.app.editingVideo = none := by
          have := (band_true hmv).2
          simpa [Option.isNone_iff_eq_none] using this
        have hpf : playerShown st.app = false := by
          have := (band_true hov).1
          simpa using this
        have hipf : st.app.isPlaying = false := by
          by_cases hip : st.app.isPlaying = true
          · exact absurd hpf (by simp [playerShown, hsv, hip, i1 hip])
          · simpa using hip
        refine ⟨?_, ?_, ?_, ?_, ?_⟩
        · intro hp
          exact absurd hp (by simp [generateNewStart, hipf])
        · intro _
          exact hed
        · intro _
          exact hipf
        · intro h4
          exact absurd h4 (by simp [generateNewStart, hed])
        · rfl
      · exact absurd hstep (by simp)
    | setView v =>
      simp only [appStep] at hstep
      split at hstep
      · rename_i hg
        obtain rfl := Option.some.inj hstep
        exact ⟨i1, i2, i3, i4, i5⟩
      · exact absurd hstep (by simp)
    | closeError =>
      simp only [appStep] at hstep
      split at hstep
      · rename_i hg
        obtain rfl := Option.some.inj hstep
        exact ⟨i1, i2, i3, i4, i5⟩
      · exact absurd hstep (by simp)
    | resolve outcome freshId now =>
      simp only [appStep] at hstep
      cases hpend : st.pending with
      | none => simp [hpend] at hstep
      | some req =>
        have hsv : st.app.isSaving = true := by
          rw [← i5, hpend]
          rfl
        have hed : st.app.editingVideo = none := i2 hsv
        have hipf : st.app.isPlaying = false := i3 hsv
        cases req with
        | saveEdit v =>
          simp only [hpend] at hstep
          obtain rfl := Option.some.inj hstep
          refine ⟨?_, ?_, ?_, ?_, ?_⟩
          · intro h1
            cases outcome with
            | error e =>
              exact absurd h1 (by simp [saveEditFinish, hipf])
            | ok objs =>
              by_cases hl : objs.length = 0
              · exact absurd h1 (by simp [saveEditFinish, hl, hipf])
              · simp [saveEditFinish, hl]
          · intro h2
            exact absurd h2 (by simp [saveEditFinish_isSaving])
          · intro h3
            exact absurd h3 (by simp [saveEditFinish_isSaving])
          · intro h4
            rw [saveEditFinish_editingVideo, hed] at h4
            exact absurd h4 (by simp)
          · simp [saveEditFinish_isSaving]
        | generateNew p =>
          simp only [hpend] at hstep
          obtain rfl := Option.some.inj hstep
          refine ⟨?_, ?_, ?_, ?_, ?_⟩
          · intro h1
            cases outcome with
            | error e =>
              exact absurd h1 (by simp [generateNewFinish, hipf])
            | ok objs =>
              by_cases hl : objs.length = 0
              · exact absurd h1 (by simp [generateNewFinish, hl, hipf])
              · simp [generateNewFinish, hl]
          · intro h2
            exact absurd h2 (by simp [generateNewFinish_isSaving])
          · intro h3
            exact absurd h3 (by simp [generateNewFinish_isSaving])
          · intro h4
            rw [generateNewFinish_editingVideo, hed] at h4
            exact absurd h4 (by simp)
          · simp [generateNewFinish_isSaving]

/-- C6 counterexample: the initial state is reachable and is in none of
the three modal states (not editing, not playing, not saving), so the
modal state is not always one of editing / playing / saving. -/
theorem modal_state_none_counterexample :
    Reachable [] (initSys [] []) ∧
    (initSys [] []).app.editingVideo = none ∧
    (initSys [] []).app.isPlaying = false ∧
    (initSys [] []).app.isSaving = false :=
  ⟨Reachable.init [], rfl, rfl, rfl⟩

/-- C6 as amended: in every reachable state the view is one of gallery
and history, and the modal states are well-formed and mutually exclusive
— playing implies a playing video is set, and no two of editing
(`editingVideo` set), playing (`isPlaying`), saving (`isSaving`) hold at
once; a neutral state with none of the three (the initial one, for
example) also occurs. -/
theorem modal_states_invariant (mock : List Video) (st : SysState)
    (h : Reachable mock st) :
    (st.app.view = View.gallery ∨ st.app.view = View.history) ∧
    (st.app.isPlaying = true → st.app.playingVideo ≠ none) ∧
    ¬(st.app.editingVideo ≠ none ∧ st.app.isSaving = true) ∧
    ¬(st.app.editingVideo ≠ none ∧ st.app.isPlaying = true) ∧
    ¬(st.app.isPlaying = true ∧ st.app.isSaving = true) := by
  obtain ⟨i1, i2, i3, i4, i5⟩ := reachable_inv mock st h
  refine ⟨?_, ?_, ?_, ?_, ?_⟩
  · cases hv : st.app.view
    · exact Or.inl rfl
    · exact Or.inr rfl
  · intro hp
    exact Option.isSome_iff_ne_none.mp (i1 hp)
  · rintro ⟨hed, hsv⟩
    exact hed (i2 hsv)
  · rintro ⟨hed, hp⟩
    have := i4 (Option.isSome_iff_ne_none.mpr hed)
    rw [this] at hp
    exact absurd hp (by simp)
  · rintro ⟨hp, hsv⟩
    have := i3 hsv
    rw [this] at hp
    exact absurd hp (by simp)

/-- Witness for the amended C6 at the reachable initial state. -/
theorem modal_states_invariant_witness :
    Reachable [] (initSys [] []) ∧
    (((initSys [] []).app.view = View.gallery ∨
        (initSys [] []).app.view = View.history) ∧
      ((initSys [] []).app.isPlaying = true →
        (initSys [] []).app.playingVideo ≠ none) ∧
      ¬((initSys [] []).app.editingVideo ≠ none ∧
        (initSys [] []).app.isSaving = true) ∧
      ¬((initSys [] []).app.editingVideo ≠ none ∧
        (initSys [] []).app.isPlaying = true) ∧
      ¬((initSys [] []).app.isPlaying = true ∧
        (initSys [] []).app.isSaving = true)) :=
  ⟨Reachable.init [],
    modal_states_invariant [] (initSys [] []) (Reachable.init [])⟩

/-! ## C7: history is transient, storage untouched -/

/-- C7: the history list starts empty on every load, the mounted app
state is independent of whatever persistent storage holds (so in-memory
state is lost on reload), and no step of the system writes persistent
storage. -/
theorem history_transient (mock : List Video) (st₁ st₂ : Storage)
    (a : UIAction) (st st' : SysState) :
    (initSys mock st₁).app.generatedVideosHistory = [] ∧
    (initSys mock st₁).app = (initSys mock st₂).app ∧
    (appStep a st = some st' → st'.storage = st.storage) := by
  refine ⟨rfl, rfl, ?_⟩
  intro h
  cases a with
  | playVideo v =>
    simp only [appStep] at h
    split at h
    · obtain rfl := Option.some.inj h
      rfl
    · exact absurd h (by simp)
  | closePlayer =>
    simp only [appStep] at h
    split at h
    · obtain rfl := Option.some.inj h
      rfl
    · exact absurd h (by simp)
  | videoLoaded =>
    simp only [appStep] at h
    split at h
    · obtain rfl := Option.some.inj h
      rfl
    · exact absurd h (by simp)
  | startEdit v =>
    simp only [appStep] at h
    split at h
    · obtain rfl := Option.some.inj h
      rfl
    · exact absurd h (by simp)
  | cancelEdit =>
    simp only [appStep] at h
    split at h
    · obtain rfl := Option.some.inj h
      rfl
    · exact absurd h (by simp)
  | saveEdit v =>
    simp only [appStep] at h
    split at h
    · obtain rfl := Option.some.inj h
      rfl
    · exact absurd h (by simp)
  | setPrompt p =>
    simp only [appStep] at h
    split at h
    · obtain rfl := Option.some.inj h
      rfl
    · exact absurd h (by simp)
  | generateNew =>
    simp only [appStep] at h
    split at h
    · obtain rfl := Option.some.inj h
      rfl
    · exact absurd h (by simp)
  | setView v =>
    simp only [appStep] at h
    split at h
    · obtain rfl := Option.some.inj h
      rfl
    · exact absurd h (by simp)
  | closeError =>
    simp only [appStep] at h
    split at h
    · obtain rfl := Option.some.inj h
      rfl
    · exact absurd h (by simp)
  | resolve outcome freshId now =>
    simp only [appStep] at h
    cases hpend : st.pending with
    | none => simp [hpend] at h
    | some req =>
      cases req with
      | saveEdit v =>
        simp only [hpend] at h
        obtain rfl := Option.some.inj h
        rfl
      | generateNew p =>
        simp only [hpend] at h
        obtain rfl := Option.some.inj h
        rfl

/-- Witness for C7: closing the error modal over non-empty storage leaves
the storage unchanged. -/
theorem history_transient_witness :
    (initSys [sampleVideo] []).app.generatedVideosHistory = [] ∧
    (initSys [sampleVideo] []).app = (initSys [sampleVideo] [("k", "v")]).app ∧
    appStep UIAction.closeError sWithError = some sWithErrorClosed ∧
    sWithErrorClosed.storage = sWithError.storage :=
  ⟨(history_transient [sampleVideo] [] [("k", "v")] UIAction.closeError
      sWithError sWithErrorClosed).1,
    (history_transient [sampleVideo] [] [("k", "v")] UIAction.closeError
      sWithError sWithErrorClosed).2.1,
    by rfl,
    (history_transient [sampleVideo] [] [("k", "v")] UIAction.closeError
      sWithError sWithErrorClosed).2.2 (by rfl)⟩

/-! ## C8: the API key is forwarded opaquely -/

theorem keyRel_refl_poll {k₁ k₂ : String} :
    ∀ l : List Ev, (∀ ev ∈ l, ev = Ev.pollCall) →
      List.Forall₂ (KeyRel k₁ k₂) l l := by
  intro l
  induction l with
  | nil => intro _; exact List.Forall₂.nil
  | cons a l ih =>
    intro h
    have ha : a = Ev.pollCall := h a (List.mem_cons_self a l)
    subst ha
    exact List.Forall₂.cons trivial (ih fun ev hev => h ev (List.mem_cons_of_mem _ hev))

theorem pollLoop_congr (env₁ env₂ : GenEnv)
    (hpoll : env₁.poll = env₂.poll) :
    ∀ fuel op i, pollLoop env₁ fuel op i = pollLoop env₂ fuel op i := by
  intro fuel
  induction fuel with
  | zero => intro op i; by_cases hd : op.done <;> simp [pollLoop, hd]
  | succ fuel ih =>
    intro op i
    by_cases hd : op.done
    · simp [pollLoop, hd]
    · cases hp : env₁.poll i op with
      | error e => simp [pollLoop, hd, hp, hpoll ▸ hp]
      | ok op' =>
        have hp₂ : env₂.poll i op = Except.ok op' := hpoll ▸ hp
        simp [pollLoop, hd, hp, hp₂, ih op' (i + 1)]

theorem fetchAll_key_rel (env₁ env₂ : GenEnv) (k₁ k₂ : String)
    (hdec : env₁.decodeURIComponent = env₂.decodeURIComponent)
    (hread : env₁.readAsDataURL = env₂.readAsDataURL)
    (hfetch : ∀ u, env₁.fetch (u ++ "&key=" ++ k₁) =
      env₂.fetch (u ++ "&key=" ++ k₂)) :
    ∀ gvs, (fetchAll env₁ k₁ gvs).2 = (fetchAll env₂ k₂ gvs).2 ∧
      List.Forall₂ (KeyRel k₁ k₂) (fetchAll env₁ k₁ gvs).1
        (fetchAll env₂ k₂ gvs).1 := by
  intro gvs
  induction gvs with
  | nil => exact ⟨rfl, List.Forall₂.nil⟩
  | cons gv rest ih =>
    obtain ⟨ihr, ihtr⟩ := ih
    have hdecgv : env₂.decodeURIComponent gv.video.uri =
        env₁.decodeURIComponent gv.video.uri := by
      rw [hdec]
    have hf₂ : env₂.fetch (env₂.decodeURIComponent gv.video.uri ++
        "&key=" ++ k₂) = env₁.fetch (env₁.decodeURIComponent gv.video.uri ++
        "&key=" ++ k₁) := by
      rw [hdecgv, ← hfetch]
    have hrel : KeyRel k₁ k₂
        (Ev.fetchCall (env₁.decodeURIComponent gv.video.uri ++ "&key=" ++ k₁))
        (Ev.fetchCall (env₂.decodeURIComponent gv.video.uri ++ "&key=" ++ k₂)) :=
      ⟨env₁.decodeURIComponent gv.video.uri, rfl, by rw [hdecgv]⟩
    have hblob : ∀ b, bloblToBase64 env₁ b = bloblToBase64 env₂ b := by
      intro b
      simp [bloblToBase64, hread]
    cases hf : env₁.fetch (env₁.decodeURIComponent gv.video.uri ++
        "&key=" ++ k₁) with
    | error e =>
      have hferr₂ : env₂.fetch (env₂.decodeURIComponent gv.video.uri ++
          "&key=" ++ k₂) = Except.error e := hf₂.trans hf
      refine ⟨by simp [fetchAll, fetchVideoObject, hf, hferr₂], ?_⟩
      simp only [fetchAll, fetchVideoObject, hf, hferr₂]
      exact List.Forall₂.cons hrel List.Forall₂.nil
    | ok res =>
      have hfok₂ : env₂.fetch (env₂.decodeURIComponent gv.video.uri ++
          "&key=" ++ k₂) = Except.ok res := hf₂.trans hf
      by_cases hok : res.ok = true
      · cases hr₁ : fetchAll env₁ k₁ rest with
        | mk tr₁ r₁ =>
          cases hr₂ : fetchAll env₂ k₂ rest with
          | mk tr₂ r₂ =>
            rw [hr₁, hr₂] at ihr ihtr
            simp only at ihr ihtr
            subst ihr
            cases r₁ with
            | error e =>
              refine ⟨by simp [fetchAll, fetchVideoObject, hf, hfok₂, hok,
                hr₁, hr₂], ?_⟩
              simp only [fetchAll, fetchVideoObject, hf, hfok₂, hok,
                Bool.not_true, Bool.false_eq_true, if_false, hr₁, hr₂]
              exact List.Forall₂.cons hrel ihtr
            | ok vs =>
              refine ⟨by simp [fetchAll, fetchVideoObject, hf, hfok₂, hok,
                hr₁, hr₂, hblob res.blob], ?_⟩
              simp only [fetchAll, fetchVideoObject, hf, hfok₂, hok,
                Bool.not_true, Bool.false_eq_true, if_false, hr₁, hr₂]
              exact List.Forall₂.cons hrel ihtr
      · have hok' : res.ok = false := by
          cases h2 : res.ok
          · rfl
          · exact absurd h2 hok
        refine ⟨by simp [fetchAll, fetchVideoObject, hf, hfok₂, hok'], ?_⟩
        simp only [fetchAll, fetchVideoObject, hf, hfok₂, hok',
          Bool.not_false, if_true]
        exact List.Forall₂.cons hrel List.Forall₂.nil

/-- C8: the API key is passed through opaquely.  (i) The SDK client is
constructed with the environment key unchanged.  (ii) Every fetch the
workflow performs appends the key verbatim as the trailing query
parameter of the decoded video URI.  (iii) Noninterference: for any two
key values, runs against worlds that agree except at the key-carrying
fetch URLs produce identical results and traces that differ only in the
key appended to fetch URLs — the program never inspects the key. -/
theorem api_key_forwarding :
    (∀ k, (ai k).apiKey = k) ∧
    (∀ env k fuel p n u,
      Ev.fetchCall u ∈ (generateVideoFromText env k fuel p n).1 →
      ∃ uri, u = env.decodeURIComponent uri ++ "&key=" ++ k) ∧
    (∀ env₁ env₂ k₁ k₂,
      env₁.create = env₂.create → env₁.poll = env₂.poll →
      env₁.decodeURIComponent = env₂.decodeURIComponent →
      env₁.readAsDataURL = env₂.readAsDataURL →
      (∀ u, env₁.fetch (u ++ "&key=" ++ k₁) =
        env₂.fetch (u ++ "&key=" ++ k₂)) →
      ∀ fuel p n,
        (generateVideoFromText env₁ k₁ fuel p n).2 =
          (generateVideoFromText env₂ k₂ fuel p n).2 ∧
        List.Forall₂ (KeyRel k₁ k₂)
          (generateVideoFromText env₁ k₁ fuel p n).1
          (generateVideoFromText env₂ k₂ fuel p n).1) := by
  refine ⟨fun k => rfl, ?_, ?_⟩
  · intro env k fuel p n u hu
    obtain ⟨ptr, ftr, htr, hptr, hftr⟩ :=
      generateVideoFromText_trace env k fuel p n
    rw [htr] at hu
    rcases List.mem_cons.mp hu with h1 | h2
    · exact absurd h1 (by simp)
    · rcases List.mem_append.mp h2 with h3 | h4
      · exact absurd (hptr _ h3) (by simp)
      · obtain ⟨uri, huri⟩ := hftr _ h4
        refine ⟨uri, ?_⟩
        injection huri
  · intro env₁ env₂ k₁ k₂ hc hp hd hr hf fuel p n
    cases hcc : env₁.create ⟨VEO_MODEL_NAME, p, n, "16:9"⟩ with
    | error e =>
      have hcc₂ : env₂.create ⟨VEO_MODEL_NAME, p, n, "16:9"⟩ =
          Except.error e := by
        rw [← hc]
        exact hcc
      refine ⟨by simp [generateVideoFromText, hcc, hcc₂], ?_⟩
      simp only [generateVideoFromText, hcc, hcc₂]
      exact List.Forall₂.cons rfl List.Forall₂.nil
    | ok op0 =>
      have hcc₂ : env₂.create ⟨VEO_MODEL_NAME, p, n, "16:9"⟩ =
          Except.ok op0 := by
        rw [← hc]
        exact hcc
      have hpl := pollLoop_congr env₁ env₂ hp fuel op0 0
      have hptrrel : List.Forall₂ (KeyRel k₁ k₂) (pollLoop env₁ fuel op0 0).1
          (pollLoop env₂ fuel op0 0).1 := by
        rw [← hpl]
        refine keyRel_refl_poll _ (fun ev hev => ?_)
        exact List.eq_of_mem_replicate
          ((pollLoop_trace_replicate env₁ fuel op0 0) ▸ hev)
      cases hpl2 : (pollLoop env₁ fuel op0 0).2 with
      | none =>
        have hpl2b : (pollLoop env₂ fuel op0 0).2 = none := by
          rw [← hpl]
          exact hpl2
        refine ⟨by simp [generateVideoFromText, hcc, hcc₂, hpl2, hpl2b], ?_⟩
        simp only [generateVideoFromText, hcc, hcc₂, hpl2, hpl2b]
        exact List.Forall₂.cons rfl hptrrel
      | some r =>
        have hpl2b : (pollLoop env₂ fuel op0 0).2 = some r := by
          rw [← hpl]
          exact hpl2
        cases r with
        | error e =>
          refine ⟨by simp [generateVideoFromText, hcc, hcc₂, hpl2, hpl2b], ?_⟩
          simp only [generateVideoFromText, hcc, hcc₂, hpl2, hpl2b]
          exact List.Forall₂.cons rfl hptrrel
        | ok op =>
          cases hresp : op.response with
          | none =>
            refine ⟨by simp [generateVideoFromText, hcc, hcc₂, hpl2, hpl2b,
              hresp], ?_⟩
            simp only [generateVideoFromText, hcc, hcc₂, hpl2, hpl2b, hresp]
            exact List.Forall₂.cons rfl hptrrel
          | some resp =>
            cases hgv : resp.generatedVideos with
            | none =>
              refine ⟨by simp [generateVideoFromText, hcc, hcc₂, hpl2, hpl2b,
                hresp, hgv], ?_⟩
              simp only [generateVideoFromText, hcc, hcc₂, hpl2, hpl2b,
                hresp, hgv]
              exact List.Forall₂.cons rfl hptrrel
            | some videos =>
              obtain ⟨hfr, hftr⟩ := fetchAll_key_rel env₁ env₂ k₁ k₂ hd hr
                hf videos
              by_cases hlen : videos.length = 0
              · refine ⟨by simp [generateVideoFromText, hcc, hcc₂, hpl2,
                  hpl2b, hresp, hgv, hlen], ?_⟩
                simp only [generateVideoFromText, hcc, hcc₂, hpl2, hpl2b,
                  hresp, hgv, hlen, if_true]
                exact List.Forall₂.cons rfl hptrrel
              · refine ⟨by simp [generateVideoFromText, hcc, hcc₂, hpl2,
                  hpl2b, hresp, hgv, hlen, hfr], ?_⟩
                have happ := List.rel_append hptrrel hftr
                simp only [generateVideoFromText, hcc, hcc₂, hpl2, hpl2b,
                  hresp, hgv, hlen, if_neg hlen]
                exact List.Forall₂.cons rfl happ

/-- Witness for C8 at a concrete happy-path run with key `k`. -/
theorem api_key_forwarding_witness :
    (ai "k").apiKey = "k" ∧
    Ev.fetchCall "u&key=k" ∈ (generateVideoFromText envSuccess "k" 1 "hi" 1).1 ∧
    (∃ uri, "u&key=k" = envSuccess.decodeURIComponent uri ++ "&key=" ++ "k") ∧
    envSuccess.create = envSuccess.create ∧
    ((generateVideoFromText envSuccess "k" 1 "hi" 1).2 =
        (generateVideoFromText envSuccess "k" 1 "hi" 1).2 ∧
      List.Forall₂ (KeyRel "k" "k")
        (generateVideoFromText envSuccess "k" 1 "hi" 1).1
        (generateVideoFromText envSuccess "k" 1 "hi" 1).1) :=
  ⟨api_key_forwarding.1 "k", by decide,
    api_key_forwarding.2.1 envSuccess "k" 1 "hi" 1 "u&key=k" (by decide), rfl,
    api_key_forwarding.2.2 envSuccess envSuccess "k" "k" rfl rfl rfl rfl
      (fun u => rfl) 1 "hi" 1⟩
